import Mathlib

/-!
Shallow embedding of the SBCarousel navigation/gesture core
(src/components/SBCarousel/SBCarousel.tsx and
src/components/SBCarousel/SBCarouselIndicators/SBCarouselIndicators.tsx).

Indices and counts are modelled as `Int` (JavaScript numbers used as
integers), pixel quantities as `Rat`.  React state cells become fields of
`CarouselState`; each event handler becomes a function from the old state
to a `StepResult` (the new state plus the optional `scrollTo` DOM side
effect).  Inside one handler every read of a React state cell sees the
value from before the event (React batches `setX` calls), which the
embedding reproduces by reading the old state `s` throughout a handler.
The content wrapper ref is `Option Wrapper`: `none` models an unmounted
ref (`carouselContentWrapperRef.current === null`).
-/

/-- Configuration derived from the component props (with their defaults). -/
structure Config where
  length : Int
  itemsPerView : Int
  infiniteLoop : Bool
  freeScroll : Bool
  scrollSensitivity : Rat
  minDragDistance : Rat
deriving DecidableEq

/-- The DOM node behind `carouselContentWrapperRef.current` when mounted. -/
structure Wrapper where
  offsetWidth : Rat
  offsetLeft : Rat
  scrollLeft : Rat
deriving DecidableEq

/-- The React state cells of the SBCarousel component. -/
structure CarouselState where
  currentIndex : Int
  isDragging : Bool
  isMouseInside : Bool
  touchClickPosition : Option Rat
  scrollLeft : Rat
deriving DecidableEq

/-- Initial state of a freshly mounted carousel (`useState` initialisers). -/
def initState : CarouselState :=
  { currentIndex := 0
    isDragging := false
    isMouseInside := false
    touchClickPosition := none
    scrollLeft := 0 }

/-- Result of one event handler: the new state and the argument of the
`scrollRefTo` call on the content wrapper, if any was made. -/
structure StepResult where
  state : CarouselState
  scrollTo : Option Rat
deriving DecidableEq

/-- `isRepeating` memo: `infiniteLoop && Children.count(children) > itemsPerView`. -/
def isRepeating (cfg : Config) : Bool :=
  cfg.infiniteLoop && decide (cfg.itemsPerView < cfg.length)

/-- `itemWidth` memo: `ref.current ? ref.current.offsetWidth / itemsPerView : 0`. -/
def itemWidth (ref : Option Wrapper) (itemsPerView : Int) : Rat :=
  match ref with
  | some w => w.offsetWidth / (itemsPerView : Rat)
  | none => 0

/-- `nextItem`: advance to the next item (guard `isRepeating || currentIndex +
itemsPerView <= length`; new index `currentIndex + itemsPerView < length ?
currentIndex + 1 : 0`). -/
def nextItem (cfg : Config) (ref : Option Wrapper) (s : CarouselState) : StepResult :=
  match ref with
  | none => ⟨s, none⟩
  | some _ =>
    if isRepeating cfg || decide (s.currentIndex + cfg.itemsPerView ≤ cfg.length) then
      let newIndex : Int :=
        if s.currentIndex + cfg.itemsPerView < cfg.length then s.currentIndex + 1 else 0
      let newScrollLeft : Rat := (newIndex : Rat) * itemWidth ref cfg.itemsPerView
      ⟨{ s with currentIndex := newIndex
                scrollLeft := newScrollLeft
                touchClickPosition := none },
        some newScrollLeft⟩
    else ⟨s, none⟩

/-- `previousItem`: move back one item (guard `isRepeating || currentIndex > 0`;
new index `currentIndex > 0 ? currentIndex - 1 : length - 1`). -/
def previousItem (cfg : Config) (ref : Option Wrapper) (s : CarouselState) : StepResult :=
  match ref with
  | none => ⟨s, none⟩
  | some _ =>
    if isRepeating cfg || decide (0 < s.currentIndex) then
      let newIndex : Int :=
        if 0 < s.currentIndex then s.currentIndex - 1 else cfg.length - 1
      let newScrollLeft : Rat := (newIndex : Rat) * itemWidth ref cfg.itemsPerView
      ⟨{ s with currentIndex := newIndex
                scrollLeft := newScrollLeft
                touchClickPosition := none },
        some newScrollLeft⟩
    else ⟨s, none⟩

/-- `nextPage`: advance by a whole view (guard `isRepeating || currentIndex +
(length % itemsPerView) < length`; new index `currentIndex + (length %
itemsPerView) < length ? currentIndex + itemsPerView : 0`). -/
def nextPage (cfg : Config) (ref : Option Wrapper) (s : CarouselState) : StepResult :=
  match ref with
  | none => ⟨s, none⟩
  | some _ =>
    if isRepeating cfg ||
        decide (s.currentIndex + cfg.length % cfg.itemsPerView < cfg.length) then
      let newIndex : Int :=
        if s.currentIndex + cfg.length % cfg.itemsPerView < cfg.length then
          s.currentIndex + cfg.itemsPerView
        else 0
      let newScrollLeft : Rat := (newIndex : Rat) * itemWidth ref cfg.itemsPerView
      ⟨{ s with currentIndex := newIndex
                scrollLeft := newScrollLeft
                touchClickPosition := none },
        some newScrollLeft⟩
    else ⟨s, none⟩

/-- `previousPage`: move back by a whole view (guard `isRepeating || currentIndex
>= itemsPerView`; new index `currentIndex - itemsPerView >= 0 ? currentIndex -
itemsPerView : length - 1`). -/
def previousPage (cfg : Config) (ref : Option Wrapper) (s : CarouselState) : StepResult :=
  match ref with
  | none => ⟨s, none⟩
  | some _ =>
    if isRepeating cfg || decide (cfg.itemsPerView ≤ s.currentIndex) then
      let newIndex : Int :=
        if 0 ≤ s.currentIndex - cfg.itemsPerView then
          s.currentIndex - cfg.itemsPerView
        else cfg.length - 1
      let newScrollLeft : Rat := (newIndex : Rat) * itemWidth ref cfg.itemsPerView
      ⟨{ s with currentIndex := newIndex
                scrollLeft := newScrollLeft
                touchClickPosition := none },
        some newScrollLeft⟩
    else ⟨s, none⟩

/-- Loop condition of `scrollToClosestItemIndex` at slot `i`:
`childLeft <= newScrollLeft && childLeft + itemWidth >= newScrollLeft`. -/
def slotMatches (w scroll : Rat) (i : Nat) : Bool :=
  decide (w * (i : Rat) ≤ scroll) && decide (w * (i : Rat) + w ≥ scroll)

/-- Index chosen once slot `i` matched:
`childLeft + itemWidth / 2 > newScrollLeft ? index : index + 1`. -/
def snapResolve (w scroll : Rat) (i : Nat) : Int :=
  if w * (i : Rat) + w / 2 > scroll then (i : Int) else (i : Int) + 1

/-- The `for` loop of `scrollToClosestItemIndex`: scan slots left to right
starting at `i` with `rem` indices remaining, stopping at the first match.
Children are modelled as present (truthy) at every index below the count. -/
def snapSearch (w scroll : Rat) : Nat → Nat → Option Int
  | _, 0 => none
  | i, Nat.succ rem =>
    if slotMatches w scroll i then some (snapResolve w scroll i)
    else snapSearch w scroll (i + 1) rem

/-- `scrollToClosestItemIndex`: snap the live wrapper scroll position to the
closest item index.  Reads `ref.current.scrollLeft`, scans the `length` slots,
and on a match sets `currentIndex`/`scrollLeft` and scrolls the wrapper. -/
def scrollToClosestItemIndex (cfg : Config) (ref : Option Wrapper)
    (s : CarouselState) : StepResult :=
  match ref with
  | none => ⟨s, none⟩
  | some w =>
    let iw : Rat := itemWidth (some w) cfg.itemsPerView
    match snapSearch iw w.scrollLeft 0 cfg.length.toNat with
    | none => ⟨s, none⟩
    | some newIndex =>
      let t : Rat := (newIndex : Rat) * iw
      ⟨{ s with currentIndex := newIndex, scrollLeft := t }, some t⟩

/-- JavaScript truthiness of the stored press position: `null` and `0` are
falsy, every other number is truthy. -/
def truthyPos (p : Option Rat) : Bool :=
  match p with
  | none => false
  | some x => decide (x ≠ 0)

/-- `handleOnTouchStart`: record the press origin (`pageX - offsetLeft`) and
the baseline scroll offset. -/
def handleOnTouchStart (ref : Option Wrapper) (pageX : Rat)
    (s : CarouselState) : CarouselState :=
  match ref with
  | none => s
  | some w =>
    { s with touchClickPosition := some (pageX - w.offsetLeft)
             scrollLeft := w.scrollLeft }

/-- `handleOnMouseDown`: same state effect as a touch start. -/
def handleOnMouseDown (ref : Option Wrapper) (pageX : Rat)
    (s : CarouselState) : CarouselState :=
  match ref with
  | none => s
  | some w =>
    { s with touchClickPosition := some (pageX - w.offsetLeft)
             scrollLeft := w.scrollLeft }

/-- `handleOnTouchEnd`: clear the press origin, stop dragging, and snap unless
free-scrolling. -/
def handleOnTouchEnd (cfg : Config) (ref : Option Wrapper)
    (s : CarouselState) : StepResult :=
  let s1 := { s with touchClickPosition := none, isDragging := false }
  if cfg.freeScroll then ⟨s1, none⟩ else scrollToClosestItemIndex cfg ref s1

/-- `handleOnTouchCancel`: `touchClickPosition && handleOnTouchEnd(e);
isDragging && setIsDragging(false)` — note the JavaScript truthiness test. -/
def handleOnTouchCancel (cfg : Config) (ref : Option Wrapper)
    (s : CarouselState) : StepResult :=
  let r := if truthyPos s.touchClickPosition then handleOnTouchEnd cfg ref s
    else (⟨s, none⟩ : StepResult)
  if s.isDragging then ⟨{ r.state with isDragging := false }, r.scrollTo⟩ else r

/-- `handleOnMouseUp`: clear the press origin, snap unless free-scrolling, and
stop dragging. -/
def handleOnMouseUp (cfg : Config) (ref : Option Wrapper)
    (s : CarouselState) : StepResult :=
  let s1 := { s with touchClickPosition := none }
  let r := if cfg.freeScroll then (⟨s1, none⟩ : StepResult)
    else scrollToClosestItemIndex cfg ref s1
  if s.isDragging then ⟨{ r.state with isDragging := false }, r.scrollTo⟩ else r

/-- `handleOnMouseLeave`: `touchClickPosition && handleOnMouseUp(e);
setIsMouseInside(false)` — note the JavaScript truthiness test. -/
def handleOnMouseLeave (cfg : Config) (ref : Option Wrapper)
    (s : CarouselState) : StepResult :=
  let r := if truthyPos s.touchClickPosition then handleOnMouseUp cfg ref s
    else (⟨s, none⟩ : StepResult)
  ⟨{ r.state with isMouseInside := false }, r.scrollTo⟩

/-- `handleOnMouseEnter`. -/
def handleOnMouseEnter (s : CarouselState) : CarouselState :=
  { s with isMouseInside := true }

/-- `handleOnMouseMove`: with an active session, compute `walk`, set the
dragging flag once `|walk| > minDragDistance`, and scroll to
`scrollLeft - walk` if the (pre-event) dragging flag was set. -/
def handleOnMouseMove (cfg : Config) (ref : Option Wrapper) (pageX : Rat)
    (s : CarouselState) : StepResult :=
  match s.touchClickPosition, ref with
  | some pos, some w =>
    let x : Rat := pageX - w.offsetLeft
    let walk : Rat := (x - pos) * cfg.scrollSensitivity
    let s1 := if |walk| > cfg.minDragDistance then
        (if s.isDragging then s else { s with isDragging := true })
      else s
    if s.isDragging then ⟨s1, some (s.scrollLeft - walk)⟩ else ⟨s1, none⟩
  | _, _ => ⟨s, none⟩

/-- `handleOnTouchMove`: same walk computation as the mouse move, with the
dragging flag set via `!isDragging && |walk| > minDragDistance`. -/
def handleOnTouchMove (cfg : Config) (ref : Option Wrapper) (pageX : Rat)
    (s : CarouselState) : StepResult :=
  match s.touchClickPosition, ref with
  | some pos, some w =>
    let x : Rat := pageX - w.offsetLeft
    let walk : Rat := (x - pos) * cfg.scrollSensitivity
    let s1 := if !s.isDragging && decide (|walk| > cfg.minDragDistance) then
        { s with isDragging := true }
      else s
    if s.isDragging then ⟨s1, some (s.scrollLeft - walk)⟩ else ⟨s1, none⟩
  | _, _ => ⟨s, none⟩

/-- Visual classification of one indicator dot. -/
inductive DotClass where
  | active
  | close
  | far
deriving DecidableEq

/-- Dot classification from `renderDots` in SBCarouselIndicators: active when
`index == currentIndex`; else at `currentIndex == 0` close iff
`currentIndex + index <= 2`; else at `currentIndex == length - 1` close iff
`|currentIndex - index| <= 2`; else close iff `|currentIndex - index| == 1`. -/
def classify (index currentIndex length : Int) : DotClass :=
  if currentIndex = index then DotClass.active
  else if currentIndex = 0 then
    (if currentIndex + index ≤ 2 then DotClass.close else DotClass.far)
  else if currentIndex = length - 1 then
    (if |currentIndex - index| ≤ 2 then DotClass.close else DotClass.far)
  else
    (if |currentIndex - index| = 1 then DotClass.close else DotClass.far)

/-! ## Concrete fixtures used by the closed theorems -/

/-- A non-repeating carousel of 10 items showing 4 per view. -/
def cfgTen : Config := ⟨10, 4, false, false, 1, 2⟩

/-- A non-repeating carousel of 4 items showing 2 per view. -/
def cfgPair : Config := ⟨4, 2, false, false, 1, 2⟩

/-- A non-repeating carousel of 2 items showing 1 per view. -/
def cfgSingle : Config := ⟨2, 1, false, false, 1, 2⟩

/-- A looping carousel of 5 items showing 4 per view (`isRepeating` holds). -/
def cfgLoop : Config := ⟨5, 4, true, false, 1, 2⟩

/-- A mounted wrapper, 400px wide, scrolled to 300px. -/
def wFour : Wrapper := ⟨400, 0, 300⟩

/-- A mounted wrapper, 100px wide, scrolled exactly to the middle of slot 0. -/
def wHundred : Wrapper := ⟨100, 0, 50⟩

/-- A mounted wrapper, 100px wide, scrolled into the left half of slot 0. -/
def wThirty : Wrapper := ⟨100, 0, 30⟩

/-- A mounted wrapper whose measured width is 0. -/
def wZero : Wrapper := ⟨0, 0, 0⟩

/-- A state with an open drag session whose recorded press position is 0. -/
def pressState : CarouselState := ⟨3, true, true, some 0, 300⟩

/-- A state with a fresh (not yet dragging) session pressed at position 50. -/
def pressedAt50 : CarouselState := ⟨0, false, false, some 50, 300⟩

/-! ## C1 -/

/-- C1: on the valid non-repeating configuration `length = 10, itemsPerView = 4`,
the command sequence `nextPage, nextPage, previousItem, nextPage` starting from
the initial state reaches `currentIndex = 7` through in-range states and the
final `nextPage` passes its guard yet sets `currentIndex = 11`, outside
`[0, length - 1]` — refuting the claim that no operation ever produces an
out-of-range index. -/
theorem nextPage_overshoots_range :
    isRepeating cfgTen = false ∧
    1 ≤ cfgTen.itemsPerView ∧ cfgTen.itemsPerView ≤ cfgTen.length ∧
    (nextPage cfgTen (some wFour) initState).state.currentIndex = 4 ∧
    (nextPage cfgTen (some wFour)
      (nextPage cfgTen (some wFour) initState).state).state.currentIndex = 8 ∧
    (previousItem cfgTen (some wFour) (nextPage cfgTen (some wFour)
      (nextPage cfgTen (some wFour) initState).state).state).state.currentIndex = 7 ∧
    (nextPage cfgTen (some wFour) (previousItem cfgTen (some wFour)
      (nextPage cfgTen (some wFour) (nextPage cfgTen (some wFour)
        initState).state).state).state).state.currentIndex = 11 ∧
    ¬((11 : Int) ≤ cfgTen.length - 1) := by
  decide

/-! ## C2 -/

/-- C2 counterexample: with `length = 4, itemsPerView = 2`, not repeating, and
`currentIndex = 2` (so `currentIndex + itemsPerView = length`), `nextItem` does
not leave the state unchanged: it wraps `currentIndex` to 0 even though the
carousel is not repeating. -/
theorem nextItem_wraps_at_exact_boundary :
    isRepeating cfgPair = false ∧
    (nextItem cfgPair (some wFour)
      { initState with currentIndex := 2 }).state.currentIndex = 0 ∧
    ¬((nextItem cfgPair (some wFour)
      { initState with currentIndex := 2 }).state.currentIndex = 2) ∧
    ¬((nextItem cfgPair (some wFour)
      { initState with currentIndex := 2 }).state.currentIndex = 2 + 1) := by
  decide

/-- C2 (amended): when not repeating, `nextItem` advances by exactly 1 if
`currentIndex + itemsPerView < length`, wraps to 0 if
`currentIndex + itemsPerView = length`, and is a no-op only when
`currentIndex + itemsPerView > length`. -/
theorem nextItem_nonrepeating_cases (cfg : Config) (w : Wrapper) (s : CarouselState)
    (hrep : isRepeating cfg = false) :
    (s.currentIndex + cfg.itemsPerView < cfg.length →
      (nextItem cfg (some w) s).state.currentIndex = s.currentIndex + 1) ∧
    (s.currentIndex + cfg.itemsPerView = cfg.length →
      (nextItem cfg (some w) s).state.currentIndex = 0) ∧
    (cfg.length < s.currentIndex + cfg.itemsPerView →
      nextItem cfg (some w) s = ⟨s, none⟩) := by
  refine ⟨fun h => ?_, fun h => ?_, fun h => ?_⟩
  · simp [nextItem, hrep, h, le_of_lt h]
  · simp [nextItem, hrep, le_of_eq h]
    omega
  · simp [nextItem, hrep, show ¬(s.currentIndex + cfg.itemsPerView ≤ cfg.length) by omega]

/-- Witness for the amended C2 theorem at `currentIndex = 1` in `cfgPair`. -/
theorem nextItem_nonrepeating_cases_witness :
    (nextItem cfgPair (some wFour)
      { initState with currentIndex := 1 }).state.currentIndex = 1 + 1 :=
  (nextItem_nonrepeating_cases cfgPair wFour
    { initState with currentIndex := 1 } (by decide)).1 (by decide)

/-! ## C3 -/

/-- C3 counterexample: with item width 100 and a raw offset of 50 — the exact
midpoint of slot 0 — the snap resolves to index 1, not 0: the tie goes to the
right half, refuting the claim that ties favor the left half. -/
theorem snap_midpoint_resolves_right :
    (scrollToClosestItemIndex cfgSingle (some wHundred)
      initState).state.currentIndex = 1 ∧
    ¬((scrollToClosestItemIndex cfgSingle (some wHundred)
      initState).state.currentIndex = 0) := by
  norm_num [scrollToClosestItemIndex, snapSearch, slotMatches, snapResolve, itemWidth,
    cfgSingle, wHundred, initState]

/-- Finding the first matching slot: if slot `k` matches and no slot from `i` up
to `k` does, the scan starting at `i` resolves slot `k`. -/
theorem snapSearch_first_match (w sc : Rat) :
    ∀ (rem i k : Nat), i ≤ k → k < i + rem →
      slotMatches w sc k = true →
      (∀ j, i ≤ j → j < k → slotMatches w sc j = false) →
      snapSearch w sc i rem = some (snapResolve w sc k) := by
  intro rem
  induction rem with
  | zero =>
    intro i k h1 h2 _ _
    omega
  | succ r ih =>
    intro i k h1 h2 hk hnone
    by_cases hik : i = k
    · subst hik
      simp [snapSearch, hk]
    · have hlt : i < k := lt_of_le_of_ne h1 hik
      have hi : slotMatches w sc i = false := hnone i le_rfl hlt
      simp only [snapSearch, hi, Bool.false_eq_true, if_false]
      exact ih (i + 1) k hlt (by omega) hk (fun j hj1 hj2 => hnone j (by omega) hj2)

/-- A slot strictly to the left of the scroll position does not match. -/
theorem slotMatches_false_of_right (w sc : Rat) (j : Nat)
    (h : w * (j : Rat) + w < sc) : slotMatches w sc j = false := by
  simp [slotMatches]
  intro _
  linarith

/-- C3 (amended): for a positive item width and a raw offset inside the slot
`[itemWidth * i, itemWidth * i + itemWidth]` of a valid index `i`, the snap
resolves to `i` when the offset is strictly below the slot midpoint and to
`i + 1` when it is at or above the midpoint — ties go to the right half. -/
theorem scrollToClosest_resolves (cfg : Config) (w : Wrapper) (s : CarouselState) (i : Nat)
    (hw : 0 < itemWidth (some w) cfg.itemsPerView)
    (hlen : (i : Int) < cfg.length)
    (hlo : itemWidth (some w) cfg.itemsPerView * (i : Rat) ≤ w.scrollLeft)
    (hhi : w.scrollLeft ≤ itemWidth (some w) cfg.itemsPerView * (i : Rat)
      + itemWidth (some w) cfg.itemsPerView) :
    (scrollToClosestItemIndex cfg (some w) s).state.currentIndex =
      if w.scrollLeft < itemWidth (some w) cfg.itemsPerView * (i : Rat)
          + itemWidth (some w) cfg.itemsPerView / 2
      then (i : Int) else (i : Int) + 1 := by
  set iw : Rat := itemWidth (some w) cfg.itemsPerView with hiwdef
  set sc : Rat := w.scrollLeft with hscdef
  have hrange : i < cfg.length.toNat := by omega
  rcases lt_or_eq_of_le hlo with hstrict | heq
  · have hsearch : snapSearch iw sc 0 cfg.length.toNat = some (snapResolve iw sc i) := by
      apply snapSearch_first_match iw sc cfg.length.toNat 0 i (Nat.zero_le i) (by omega)
      · simp [slotMatches]
        exact ⟨hlo, hhi⟩
      · intro j _ hj
        apply slotMatches_false_of_right
        have hcast : ((j : Rat) + 1) ≤ (i : Rat) := by
          exact_mod_cast Nat.succ_le_of_lt hj
        have hmono : iw * ((j : Rat) + 1) ≤ iw * (i : Rat) :=
          mul_le_mul_of_nonneg_left hcast (le_of_lt hw)
        calc iw * (j : Rat) + iw = iw * ((j : Rat) + 1) := by ring
          _ ≤ iw * (i : Rat) := hmono
          _ < sc := hstrict
    simp only [scrollToClosestItemIndex, ← hiwdef, ← hscdef, hsearch, snapResolve]
  · rcases Nat.eq_zero_or_eq_succ_pred i with h0 | hsucc
    · subst h0
      have hsc0 : sc = 0 := by
        simp at heq
        linarith [heq]
      have hsearch : snapSearch iw sc 0 cfg.length.toNat = some (snapResolve iw sc 0) := by
        apply snapSearch_first_match iw sc cfg.length.toNat 0 0 le_rfl (by omega)
        · simp [slotMatches, hsc0]
          linarith
        · intro j hj1 hj2
          omega
      simp only [scrollToClosestItemIndex, ← hiwdef, ← hscdef, hsearch, snapResolve]
    · obtain ⟨m, hm⟩ : ∃ m, i = m + 1 := ⟨i - 1, by omega⟩
      subst hm
      have hedge : iw * ((m : Rat) + 1) = sc := by
        push_cast at heq ⊢
        linarith [heq]
      have hmatchm : slotMatches iw sc m = true := by
        simp [slotMatches]
        constructor
        · nlinarith [hw]
        · nlinarith [hw]
      have hsearch : snapSearch iw sc 0 cfg.length.toNat = some (snapResolve iw sc m) := by
        apply snapSearch_first_match iw sc cfg.length.toNat 0 m (Nat.zero_le m) (by omega) hmatchm
        intro j _ hj
        apply slotMatches_false_of_right
        have hcast : ((j : Rat) + 1) ≤ (m : Rat) := by
          exact_mod_cast Nat.succ_le_of_lt hj
        nlinarith [hw]
      simp only [scrollToClosestItemIndex, ← hiwdef, ← hscdef, hsearch, snapResolve]
      have hres : ¬(iw * (m : Rat) + iw / 2 > sc) := by
        rw [← hedge]
        intro hcon
        nlinarith [hw]
      rw [if_neg hres, if_pos (by rw [← hedge]; push_cast; nlinarith [hw])]
      push_cast
      ring

/-- Witness for the amended C3 theorem: offset 30 in the left half of slot 0. -/
theorem scrollToClosest_resolves_witness :
    (scrollToClosestItemIndex cfgSingle (some wThirty) initState).state.currentIndex =
      if wThirty.scrollLeft < itemWidth (some wThirty) cfgSingle.itemsPerView * ((0 : Nat) : Rat)
          + itemWidth (some wThirty) cfgSingle.itemsPerView / 2
      then ((0 : Nat) : Int) else ((0 : Nat) : Int) + 1 :=
  scrollToClosest_resolves cfgSingle wThirty initState 0
    (by norm_num [itemWidth, cfgSingle, wThirty])
    (by decide)
    (by norm_num [itemWidth, cfgSingle, wThirty])
    (by norm_num [itemWidth, cfgSingle, wThirty])

/-! ## C4 -/

/-- C4 counterexample: with the repeating configuration `length = 5,
itemsPerView = 4`, five `nextItem` calls from index 0 end at index 1, not 0 —
the cycle length is `length - itemsPerView + 1 = 2`, not `length`. -/
theorem nextItem_five_calls_do_not_cycle :
    isRepeating cfgLoop = true ∧
    ((fun st => (nextItem cfgLoop (some wFour) st).state)^[5] initState).currentIndex = 1 ∧
    ¬(((fun st => (nextItem cfgLoop (some wFour) st).state)^[5]
      initState).currentIndex = 0) := by
  decide

/-- Index update of `nextItem` on a repeating carousel. -/
theorem nextItem_repeating_currentIndex (cfg : Config) (w : Wrapper) (s : CarouselState)
    (hrep : isRepeating cfg = true) :
    (nextItem cfg (some w) s).state.currentIndex =
      if s.currentIndex + cfg.itemsPerView < cfg.length then s.currentIndex + 1 else 0 := by
  simp [nextItem, hrep]

/-- C4 (amended): on a repeating carousel, iterating `nextItem` from index 0
visits indices `0, 1, ..., length - itemsPerView` in order and returns to 0
after exactly `length - itemsPerView + 1` calls; indices above
`length - itemsPerView` are never reached (all of them only when
`itemsPerView = 1`). -/
theorem nextItem_cycle (cfg : Config) (w : Wrapper) (s : CarouselState)
    (hrep : isRepeating cfg = true) (h0 : s.currentIndex = 0) :
    (∀ k : Nat, (k : Int) ≤ cfg.length - cfg.itemsPerView →
      ((fun st => (nextItem cfg (some w) st).state)^[k] s).currentIndex = k) ∧
    ((fun st => (nextItem cfg (some w) st).state)^[(cfg.length - cfg.itemsPerView + 1).toNat]
        s).currentIndex = 0 := by
  have hvisit : ∀ k : Nat, (k : Int) ≤ cfg.length - cfg.itemsPerView →
      ((fun st => (nextItem cfg (some w) st).state)^[k] s).currentIndex = k := by
    intro k
    induction k with
    | zero => intro _; simpa using h0
    | succ n ih =>
      intro hk
      rw [Function.iterate_succ_apply']
      have hn : ((n : Int)) ≤ cfg.length - cfg.itemsPerView := by push_cast at hk ⊢; omega
      have hcur := ih hn
      rw [nextItem_repeating_currentIndex cfg w _ hrep, hcur,
        if_pos (by push_cast at hk ⊢; omega)]
      push_cast
      ring
  refine ⟨hvisit, ?_⟩
  have hlt : cfg.itemsPerView < cfg.length := by
    have hr := hrep
    simp [isRepeating] at hr
    exact hr.2
  have hm : (cfg.length - cfg.itemsPerView + 1).toNat
      = (cfg.length - cfg.itemsPerView).toNat + 1 := by
    omega
  rw [hm, Function.iterate_succ_apply']
  have hcast : (((cfg.length - cfg.itemsPerView).toNat : Int)) = cfg.length - cfg.itemsPerView := by
    omega
  have hcur := hvisit (cfg.length - cfg.itemsPerView).toNat (by omega)
  rw [nextItem_repeating_currentIndex cfg w _ hrep, hcur, hcast, if_neg (by omega)]

/-- Witness for the amended C4 theorem on `cfgLoop`: back at 0 after 2 calls. -/
theorem nextItem_cycle_witness :
    ((fun st => (nextItem cfgLoop (some wFour) st).state)^[(cfgLoop.length
      - cfgLoop.itemsPerView + 1).toNat] initState).currentIndex = 0 :=
  (nextItem_cycle cfgLoop wFour initState (by decide) (by decide)).2

/-! ## C5 -/

/-- C5: in a state with an open drag session whose recorded press position is 0,
the mouse-leave handler does not resolve the session — the JavaScript truthiness
test `touchClickPosition && handleOnMouseUp(e)` treats the position 0 as false,
so the origin stays set, `isDragging` stays true, and no snap happens; the
touch-cancel handler likewise leaves the origin set. -/
theorem mouseLeave_zero_press_leaks_session :
    (handleOnMouseLeave cfgTen (some wFour) pressState).state.touchClickPosition = some 0 ∧
    (handleOnMouseLeave cfgTen (some wFour) pressState).state.isDragging = true ∧
    (handleOnMouseLeave cfgTen (some wFour) pressState).scrollTo = none ∧
    (handleOnTouchCancel cfgTen (some wFour) pressState).state.touchClickPosition = some 0 ∧
    (handleOnTouchCancel cfgTen (some wFour) pressState).scrollTo = none := by
  decide

/-! ## C6 -/

/-- C6 counterexample: a mounted wrapper whose measured width is 0 also yields
`itemWidth = 0`, yet `nextItem` is not a no-op there — `currentIndex` moves from
0 to 1. -/
theorem zero_width_mounted_moves_index :
    itemWidth (some wZero) cfgSingle.itemsPerView = 0 ∧
    (nextItem cfgSingle (some wZero) initState).state.currentIndex = 1 ∧
    ¬((nextItem cfgSingle (some wZero) initState).state.currentIndex
      = initState.currentIndex) := by
  norm_num [itemWidth, nextItem, isRepeating, cfgSingle, wZero, initState]

/-- C6 (amended): the guard the code actually has is on the wrapper ref, not on
the width: with the wrapper unmounted (the unmeasured-geometry state, where
`itemWidth` reads 0), all four navigation commands leave the state unchanged and
issue no scroll; a mounted wrapper of zero measured width does not make them
no-ops. -/
theorem unmounted_navigation_noop (cfg : Config) (s : CarouselState) :
    itemWidth none cfg.itemsPerView = 0 ∧
    nextItem cfg none s = ⟨s, none⟩ ∧
    previousItem cfg none s = ⟨s, none⟩ ∧
    nextPage cfg none s = ⟨s, none⟩ ∧
    previousPage cfg none s = ⟨s, none⟩ :=
  ⟨rfl, rfl, rfl, rfl, rfl⟩

/-! ## C7 -/

/-- C7 counterexample: in the scenario (origin 50, move to 70, sensitivity 1,
threshold 2, baseline 300) the threshold-crossing move sets the dragging flag
but issues no scroll write — the handler reads the pre-event `isDragging`, so
the same move does not apply the offset `baseline - 20`. -/
theorem threshold_move_writes_no_offset :
    (handleOnMouseMove cfgTen (some wFour) 70 pressedAt50).state.isDragging = true ∧
    (handleOnMouseMove cfgTen (some wFour) 70 pressedAt50).scrollTo = none ∧
    ¬((handleOnMouseMove cfgTen (some wFour) 70 pressedAt50).scrollTo
      = some (300 - 20)) := by
  norm_num [handleOnMouseMove, cfgTen, wFour, pressedAt50]
  simp

/-- C7 (amended): the threshold-crossing move (walk = 20 > 2) commits the drag,
but the live offset `baselineScrollOffset - walk = 280` is only written by a
move made while the session is already dragging — here the next identical move;
the touch handler behaves the same way. -/
theorem threshold_move_commits_then_writes :
    (handleOnMouseMove cfgTen (some wFour) 70 pressedAt50).state.isDragging = true ∧
    (handleOnMouseMove cfgTen (some wFour) 70 pressedAt50).scrollTo = none ∧
    (handleOnMouseMove cfgTen (some wFour) 70
      (handleOnMouseMove cfgTen (some wFour) 70 pressedAt50).state).scrollTo
      = some (300 - 20) ∧
    (handleOnTouchMove cfgTen (some wFour) 70 pressedAt50).state.isDragging = true ∧
    (handleOnTouchMove cfgTen (some wFour) 70 pressedAt50).scrollTo = none ∧
    (handleOnTouchMove cfgTen (some wFour) 70
      (handleOnTouchMove cfgTen (some wFour) 70 pressedAt50).state).scrollTo
      = some (300 - 20) := by
  norm_num [handleOnMouseMove, handleOnTouchMove, cfgTen, wFour, pressedAt50]

/-! ## C8 -/

/-- C8: during an active session, a pointer move whose walk has absolute value
at most `minDragDistance` leaves the dragging flag unchanged (so it never
transitions into dragging), and a single move whose walk exceeds the threshold
sets the dragging flag — for both the mouse and the touch handler. -/
theorem moveCommitThreshold (cfg : Config) (w : Wrapper) (s : CarouselState)
    (pageX pos : Rat) (hpos : s.touchClickPosition = some pos) :
    (|(pageX - w.offsetLeft - pos) * cfg.scrollSensitivity| ≤ cfg.minDragDistance →
      (handleOnMouseMove cfg (some w) pageX s).state.isDragging = s.isDragging ∧
      (handleOnTouchMove cfg (some w) pageX s).state.isDragging = s.isDragging) ∧
    (cfg.minDragDistance < |(pageX - w.offsetLeft - pos) * cfg.scrollSensitivity| →
      (handleOnMouseMove cfg (some w) pageX s).state.isDragging = true ∧
      (handleOnTouchMove cfg (some w) pageX s).state.isDragging = true) := by
  constructor
  · intro h
    cases hd : s.isDragging <;>
      simp [handleOnMouseMove, handleOnTouchMove, hpos, hd, not_lt.mpr h]
  · intro h
    cases hd : s.isDragging <;>
      simp [handleOnMouseMove, handleOnTouchMove, hpos, hd, h]

/-- Witness for the C8 theorem: walk 20 exceeds threshold 2 and both handlers
commit the drag. -/
theorem moveCommitThreshold_witness :
    (handleOnMouseMove cfgTen (some wFour) 70 pressedAt50).state.isDragging = true ∧
    (handleOnTouchMove cfgTen (some wFour) 70 pressedAt50).state.isDragging = true :=
  (moveCommitThreshold cfgTen wFour pressedAt50 70 50 rfl).2 (by norm_num [cfgTen, wFour])

/-! ## C9 -/

/-- C9: dot classification — active exactly at the current index; for a
non-active dot, at `currentIndex = 0` close iff `index ≤ 2`, else far; at
`currentIndex = length - 1` (when not 0) close iff `|currentIndex - index| ≤ 2`,
else far; in the interior close iff `|currentIndex - index| = 1`, else far; and
in particular `classify 2 0 20 = close` and `classify 3 0 20 = far`. -/
theorem classify_characterisation (index ci len : Int) :
    (classify index ci len = DotClass.active ↔ ci = index) ∧
    (ci ≠ index → ci = 0 →
      ((classify index ci len = DotClass.close ↔ index ≤ 2) ∧
       (classify index ci len = DotClass.far ↔ ¬index ≤ 2))) ∧
    (ci ≠ index → ci ≠ 0 → ci = len - 1 →
      ((classify index ci len = DotClass.close ↔ |ci - index| ≤ 2) ∧
       (classify index ci len = DotClass.far ↔ ¬|ci - index| ≤ 2))) ∧
    (ci ≠ index → ci ≠ 0 → ci ≠ len - 1 →
      ((classify index ci len = DotClass.close ↔ |ci - index| = 1) ∧
       (classify index ci len = DotClass.far ↔ ¬|ci - index| = 1))) ∧
    classify 2 0 20 = DotClass.close ∧ classify 3 0 20 = DotClass.far := by
  refine ⟨?_, fun h1 h2 => ?_, fun h1 h2 h3 => ?_, fun h1 h2 h3 => ?_, by decide, by decide⟩
  · unfold classify
    split_ifs <;> simp_all
  · subst h2
    unfold classify
    simp [h1]
  · subst h3
    unfold classify
    simp [h1, h2]
  · unfold classify
    simp [h1, h2, h3]

/-- Witness for the C9 theorem: a close dot near 0 and a far dot near the end. -/
theorem classify_characterisation_witness :
    (classify 1 0 20 = DotClass.close ↔ (1 : Int) ≤ 2) ∧
    (classify 5 19 20 = DotClass.far ↔ ¬|(19 : Int) - 5| ≤ 2) :=
  ⟨((classify_characterisation 1 0 20).2.1 (by decide) rfl).1,
   ((classify_characterisation 5 19 20).2.2.1 (by decide) (by decide) (by decide)).2⟩

/-! ## C10 -/

/-- C10: each of the four directional commands, when its guard passes (stated
here exactly as in the code), resets the recorded press position
`touchClickPosition` to null. -/
theorem navigation_clears_press (cfg : Config) (w : Wrapper) (s : CarouselState) :
    ((isRepeating cfg || decide (s.currentIndex + cfg.itemsPerView ≤ cfg.length)) = true →
      (nextItem cfg (some w) s).state.touchClickPosition = none) ∧
    ((isRepeating cfg || decide (0 < s.currentIndex)) = true →
      (previousItem cfg (some w) s).state.touchClickPosition = none) ∧
    ((isRepeating cfg
        || decide (s.currentIndex + cfg.length % cfg.itemsPerView < cfg.length)) = true →
      (nextPage cfg (some w) s).state.touchClickPosition = none) ∧
    ((isRepeating cfg || decide (cfg.itemsPerView ≤ s.currentIndex)) = true →
      (previousPage cfg (some w) s).state.touchClickPosition = none) := by
  refine ⟨fun h => ?_, fun h => ?_, fun h => ?_, fun h => ?_⟩ <;>
    simp [nextItem, previousItem, nextPage, previousPage, h]

/-- Witness for the C10 theorem: a passing `nextItem` and a passing
`previousPage` both clear the press position. -/
theorem navigation_clears_press_witness :
    (nextItem cfgTen (some wFour) initState).state.touchClickPosition = none ∧
    (previousPage cfgTen (some wFour)
      { initState with currentIndex := 4 }).state.touchClickPosition = none :=
  ⟨(navigation_clears_press cfgTen wFour initState).1 (by decide),
   (navigation_clears_press cfgTen wFour
     { initState with currentIndex := 4 }).2.2.2 (by decide)⟩
